import Mathlib

/-
  Verification development for `genologics/epp.py` (EPP helper utilities).

  The Python source is shallowly embedded: pure helpers become Lean
  functions; filesystem state is an explicit map from paths to file
  contents; Python exceptions become an `Except` result with a tag per
  exception class (the classes that appear in the source's `except`
  clauses are distinct tags, matched exactly the way the source's
  `try`/`except` chain dispatches on them); process-global state
  (`sys.stdout`, `sys.stderr`, the logging module) is threaded
  explicitly.  Python strings are modelled by Lean `String` restricted
  to the ASCII behaviour of `str.rstrip`, `str.splitlines` and
  `str.split`.
-/

/-- Whitespace predicate of Python `str.strip` family, ASCII fragment:
space, tab, newline, carriage return, vertical tab, form feed. -/
def pyIsSpace (c : Char) : Bool :=
  c = ' ' || c = '\t' || c = '\n' || c = '\x0d' || c = '\x0b' || c = '\x0c'

/-- Model of Python `str.rstrip()` with no argument: drop trailing whitespace. -/
def pyRstrip (s : String) : String :=
  String.mk ((s.data.reverse.dropWhile pyIsSpace).reverse)

/-- Helper for `pySplitlines`: walks the character list keeping the
current (reversed) line in `acc`; a line boundary flushes `acc`, and a
final unterminated non-empty line is also flushed. -/
def pySplitlinesAux : List Char → List Char → List String
  | [], acc => if acc.isEmpty then [] else [String.mk acc.reverse]
  | '\n' :: rest, acc => String.mk acc.reverse :: pySplitlinesAux rest []
  | '\x0d' :: '\n' :: rest, acc => String.mk acc.reverse :: pySplitlinesAux rest []
  | '\x0d' :: rest, acc => String.mk acc.reverse :: pySplitlinesAux rest []
  | c :: rest, acc => pySplitlinesAux rest (c :: acc)

/-- Model of Python `str.splitlines()` on the line boundaries LF, CR and
CRLF: a trailing boundary yields no trailing empty line, and the empty
string yields no lines. -/
def pySplitlines (s : String) : List String :=
  pySplitlinesAux s.data []

/-- Model of Python `os.path.basename` for POSIX paths: the longest
slash-free suffix. -/
def basename (s : String) : String :=
  String.mk ((s.data.reverse.takeWhile (fun c => c ≠ '/')).reverse)

/-- Model of Python `os.path.join` for POSIX paths and two arguments:
an absolute second component replaces the first; otherwise a separator
is inserted unless the first part is empty or already ends in one. -/
def pathJoin (a b : String) : String :=
  if b.data.take 1 = ['/'] then b
  else if a = "" || a.data.reverse.take 1 = ['/'] then a ++ b
  else a ++ "/" ++ b

/-- Tags for the Python exception classes the source distinguishes in its
`except` clauses (plus the ones its expressions can raise).  Distinct
tags model distinct, unrelated exception classes. -/
inductive PyExc where
  | httpError : PyExc
  | ioError (msg : String) : PyExc
  | indexError : PyExc
  | distributionNotFound (msg : String) : PyExc
  | other (tag : String) : PyExc
deriving DecidableEq, Repr

/-- Model of Python list subscription `l[i]`: raises `IndexError` when the
index is out of range. -/
def pyIndex (l : List String) (i : Nat) : Except PyExc String :=
  match l.get? i with
  | some x => Except.ok x
  | none => Except.error PyExc.indexError

/-- Filesystem state: a map from (POSIX) paths to file contents; `none`
means no file at that path. -/
def Fs : Type := String → Option String

/-- Model of `shutil.copy(src, dst)` for a file destination: reading a
missing source raises `IOError`; otherwise the destination is
created/overwritten with the source's contents. -/
def copyFile (fs : Fs) (src dst : String) : Except PyExc Fs :=
  match fs src with
  | some content => Except.ok (fun p => if p = dst then some content else fs p)
  | none => Except.error (PyExc.ioError ("No such file or directory: " ++ src))

/-- Exception classes raised by `unique_check`; both are `ValueError`
subclasses in the source. -/
inductive CheckError where
  | EmptyError (msg : String) : CheckError
  | NotUniqueError (msg : String) : CheckError
deriving DecidableEq, Repr

/-- Model of `unique_check(l, msg)`: checks that `l` has length 1,
otherwise raises `EmptyError` or `NotUniqueError` with `msg` in the
message text, mirroring the source's `if`/`elif` chain. -/
def unique_check {α : Type} (l : List α) (msg : String) : Except CheckError Unit :=
  if l.length = 0 then
    Except.error (CheckError.EmptyError ("No item found for " ++ msg))
  else if l.length ≠ 1 then
    Except.error (CheckError.NotUniqueError ("Multiple items found for " ++ msg))
  else
    Except.ok ()

/-- Claim C4: `unique_check` returns silently iff the list has length 1,
raises `EmptyError` (with the label in the message) iff it is empty, and
raises `NotUniqueError` (with the label in the message) iff it has more
than one element. -/
theorem unique_check_cardinality {α : Type} (l : List α) (msg : String) :
    ((unique_check l msg = Except.ok ()) ↔ l.length = 1) ∧
    ((∃ m, unique_check l msg = Except.error (CheckError.EmptyError m) ∧
        ∃ p q, m = p ++ msg ++ q) ↔ l.length = 0) ∧
    ((∃ m, unique_check l msg = Except.error (CheckError.NotUniqueError m) ∧
        ∃ p q, m = p ++ msg ++ q) ↔ 1 < l.length) := by
  match l with
  | [] =>
    refine ⟨by simp [unique_check], ?_, by simp [unique_check]⟩
    constructor
    · intro _; rfl
    · intro _
      exact ⟨"No item found for " ++ msg, by simp [unique_check],
        "No item found for ", "", by simp⟩
  | [x] =>
    exact ⟨by simp [unique_check], by simp [unique_check], by simp [unique_check]⟩
  | x :: y :: rest =>
    refine ⟨by simp [unique_check], by simp [unique_check], ?_⟩
    constructor
    · intro _
      simp only [List.length_cons]
      omega
    · intro _
      have h0 : ¬ ((x :: y :: rest).length = 0) := by simp
      have h1 : ¬ ((x :: y :: rest).length = 1) := by simp
      refine ⟨"Multiple items found for " ++ msg, ?_,
        "Multiple items found for ", "", by simp⟩
      simp [unique_check, h0, h1]

/-- Severity levels of the Python `logging` module used by the source. -/
inductive Level where
  | debug : Level
  | info : Level
  | warning : Level
  | error : Level
deriving DecidableEq, Repr

/-- One emitted log record: logger (channel) name, severity, message. -/
structure LogRecord where
  logger : String
  level : Level
  msg : String
deriving DecidableEq, Repr

/-- Model of the `EppLogger.StreamToLogger` object: a fake file-like
stream with a logger name, a log level, and the `linebuf` field (which
the source initialises to the empty string and never uses). -/
structure StreamToLogger where
  logger : String
  log_level : Level
  linebuf : String
deriving DecidableEq, Repr

/-- Model of `StreamToLogger.write(buf)`: loops over
`buf.rstrip().splitlines()` and calls `logger.log(log_level, line.rstrip())`
for every line of the loop; the object is returned unchanged (the write
mutates no state, so nothing is carried over to a later call). -/
def StreamToLogger.write (self : StreamToLogger) (buf : String) :
    StreamToLogger × List LogRecord :=
  (self,
    (pySplitlines (pyRstrip buf)).foldl
      (fun recs line => recs ++ [⟨self.logger, self.log_level, pyRstrip line⟩]) [])

/-- Accumulating a singleton per element from the left is `map`. -/
theorem foldl_append_singleton {α β : Type} (f : α → β) (xs : List α) (acc : List β) :
    xs.foldl (fun recs x => recs ++ [f x]) acc = acc ++ xs.map f := by
  induction xs generalizing acc with
  | nil => simp
  | cons x xs ih => simp [List.foldl_cons, ih]

/-- Claim C2 (amended): a write to a captured stream first strips the
buffer's trailing whitespace, splits it into lines, and immediately emits
exactly one record per resulting line — including interior empty lines,
which become records with an empty message — each with its own trailing
whitespace stripped; the stream object is unchanged, so nothing is
buffered across write calls.  Only trailing empty lines (removed by the
initial strip) produce no record. -/
theorem streamToLogger_write_emits_lines (self : StreamToLogger) (buf : String) :
    (StreamToLogger.write self buf).1 = self ∧
    (StreamToLogger.write self buf).2 =
      (pySplitlines (pyRstrip buf)).map
        (fun line => ⟨self.logger, self.log_level, pyRstrip line⟩) ∧
    (StreamToLogger.write self buf).2.length = (pySplitlines (pyRstrip buf)).length := by
  refine ⟨rfl, ?_, ?_⟩
  · simp only [StreamToLogger.write]
    rw [foldl_append_singleton (fun line =>
      (⟨self.logger, self.log_level, pyRstrip line⟩ : LogRecord))]
    simp
  · simp only [StreamToLogger.write]
    rw [foldl_append_singleton (fun line =>
      (⟨self.logger, self.log_level, pyRstrip line⟩ : LogRecord))]
    simp

/-- Claim C2 counterexample: writing the buffer `"a\n\nb"` emits three
records — one of them for the interior empty line (its message is empty)
— although only two of the lines are non-empty, so it is not the case
that records are emitted only for non-empty lines. -/
theorem streamToLogger_write_empty_line_record :
    (StreamToLogger.write ⟨"STDOUT", Level.info, ""⟩ "a\n\nb").2 =
      [⟨"STDOUT", Level.info, "a"⟩, ⟨"STDOUT", Level.info, ""⟩,
        ⟨"STDOUT", Level.info, "b"⟩] ∧
    ((pySplitlines (pyRstrip "a\n\nb")).filter (fun l => !(l == ""))).length = 2 ∧
    (StreamToLogger.write ⟨"STDOUT", Level.info, ""⟩ "a\n\nb").2.length = 3 := by
  refine ⟨by decide, by decide, by decide⟩

/-- Model of `attach_file(src, resource)`: computes
`new_name = resource.id + '_' + basename(src)`, joins it to the current
working directory, copies the source there with `shutil.copy`, and
returns the location; copy failures propagate uncaught. -/
def attach_file (fs : Fs) (cwd src resourceId : String) :
    Except PyExc (Fs × String) :=
  let original_name := basename src
  let new_name := resourceId ++ "_" ++ original_name
  let location := pathJoin cwd new_name
  match copyFile fs src location with
  | Except.ok fs1 => Except.ok (fs1, location)
  | Except.error e => Except.error e

/-- Every character of a `basename` is slash-free. -/
theorem basename_data_reverse (s : String) :
    (basename s).data.reverse = s.data.reverse.takeWhile (fun c => c ≠ '/') := by
  simp [basename]

/-- Appending an underscore and a basename to any string changes the
basename: the new basename is strictly longer, because the slash-free
suffix grows through the appended underscore. -/
theorem append_underscore_basename_ne (x s : String) :
    x ++ "_" ++ basename s ≠ s := by
  intro h
  have hbase : basename (x ++ "_" ++ basename s) = basename s := congrArg basename h
  have hall : ∀ c ∈ (basename s).data.reverse, decide (c ≠ '/') = true := by
    intro c hc
    rw [basename_data_reverse] at hc
    have hp := List.mem_takeWhile_imp hc
    exact hp
  have hrev : (x ++ "_" ++ basename s).data.reverse
      = (basename s).data.reverse ++ '_' :: x.data.reverse := by
    have hu : ("_" : String).data = ['_'] := rfl
    simp [hu]
  have hlen : (basename (x ++ "_" ++ basename s)).data.length
      = (basename s).data.length + 1
        + (x.data.reverse.takeWhile (fun c => c ≠ '/')).length := by
    show ((x ++ "_" ++ basename s).data.reverse.takeWhile
        (fun c => c ≠ '/')).reverse.length = _
    rw [hrev, List.takeWhile_append_of_pos hall,
      List.takeWhile_cons_of_pos (by decide)]
    simp
    omega
  rw [hbase] at hlen
  omega

/-- The destination path computed by `attach_file` is never the source
path itself, in every branch of `os.path.join`. -/
theorem attach_dest_ne_src (cwd src resourceId : String) :
    pathJoin cwd (resourceId ++ "_" ++ basename src) ≠ src := by
  unfold pathJoin
  split
  · exact append_underscore_basename_ne resourceId src
  · split
    · intro h
      have hassoc : (cwd ++ resourceId) ++ "_" ++ basename src
          = cwd ++ (resourceId ++ "_" ++ basename src) := by
        simp [String.append_assoc]
      exact append_underscore_basename_ne (cwd ++ resourceId) src (hassoc.trans h)
    · intro h
      have hassoc : (cwd ++ "/" ++ resourceId) ++ "_" ++ basename src
          = cwd ++ "/" ++ (resourceId ++ "_" ++ basename src) := by
        simp [String.append_assoc]
      exact append_underscore_basename_ne (cwd ++ "/" ++ resourceId) src
        (hassoc.trans h)

/-- Claim C5: for an existing readable source and a non-empty resource
identifier, `attach_file` succeeds, the returned path is the working
directory joined with the name `resourceId_basename(src)`, and the copy
at that path has the source's exact contents. -/
theorem attach_file_copies (fs : Fs) (cwd src resourceId content : String)
    (hsrc : fs src = some content) (_hid : resourceId ≠ "") :
    ∃ fs1, attach_file fs cwd src resourceId =
        Except.ok (fs1, pathJoin cwd (resourceId ++ "_" ++ basename src)) ∧
      fs1 (pathJoin cwd (resourceId ++ "_" ++ basename src)) = some content := by
  refine ⟨fun p => if p = pathJoin cwd (resourceId ++ "_" ++ basename src)
      then some content else fs p, ?_, ?_⟩
  · simp [attach_file, copyFile, hsrc]
  · simp

/-- Claim C5 witness: a concrete filesystem on which `attach_file`
produces `ABC123_report.txt` in the working directory. -/
theorem attach_file_copies_witness :
    (fun p => if p = "/data/report.txt" then some "DATA"
      else (none : Option String)) "/data/report.txt" = some "DATA" ∧
    ("ABC123" : String) ≠ "" ∧
    ∃ fs1, attach_file (fun p => if p = "/data/report.txt" then some "DATA"
          else (none : Option String)) "/work" "/data/report.txt" "ABC123" =
        Except.ok (fs1,
          pathJoin "/work" ("ABC123" ++ "_" ++ basename "/data/report.txt")) ∧
      fs1 (pathJoin "/work" ("ABC123" ++ "_" ++ basename "/data/report.txt")) =
        some "DATA" :=
  ⟨by decide, by decide,
    attach_file_copies _ "/work" "/data/report.txt" "ABC123" "DATA"
      (by decide) (by decide)⟩

/-- Concrete filesystem for the C9 counterexample: the source file and an
already existing file at the destination name. -/
def fsWithDest : Fs := fun p =>
  if p = "/w/r.txt" then some "data"
  else if p = "/w/AB_r.txt" then some "old" else none

/-- Claim C9 counterexample: when a file already exists at the destination
name, the call still succeeds but creates no new file — it overwrites the
existing `/w/AB_r.txt` (its content changes from `old` to `data`), so a
successful call does not always create exactly one new file. -/
theorem attach_file_overwrites_existing :
    fsWithDest "/w/AB_r.txt" = some "old" ∧
    Except.map (fun r => (r.2, r.1 "/w/AB_r.txt", r.1 "/w/r.txt"))
        (attach_file fsWithDest "/w" "/w/r.txt" "AB") =
      Except.ok ("/w/AB_r.txt", some "data", some "data") := by
  refine ⟨by decide, ?_⟩
  have hsrc : fsWithDest "/w/r.txt" = some "data" := by decide
  have hdest : pathJoin "/w" ("AB" ++ "_" ++ basename "/w/r.txt") = "/w/AB_r.txt" := by
    decide
  simp only [attach_file, copyFile, hsrc, hdest, Except.map]
  simp

/-- Claim C9 (amended): a successful `attach_file` changes the filesystem
only at the destination path `cwd/{id}_{basename(src)}` — creating the
file there when absent and overwriting it when present — and the source
file is neither deleted nor modified; no other path changes. -/
theorem attach_file_frame (fs : Fs) (cwd src resourceId content : String)
    (hsrc : fs src = some content) :
    ∃ fs1, attach_file fs cwd src resourceId =
        Except.ok (fs1, pathJoin cwd (resourceId ++ "_" ++ basename src)) ∧
      fs1 (pathJoin cwd (resourceId ++ "_" ++ basename src)) = some content ∧
      (∀ p, p ≠ pathJoin cwd (resourceId ++ "_" ++ basename src) → fs1 p = fs p) ∧
      fs1 src = fs src := by
  refine ⟨fun p => if p = pathJoin cwd (resourceId ++ "_" ++ basename src)
      then some content else fs p, ?_, by simp, ?_, ?_⟩
  · simp [attach_file, copyFile, hsrc]
  · intro p hp
    simp [hp]
  · have hne : src ≠ pathJoin cwd (resourceId ++ "_" ++ basename src) :=
      (attach_dest_ne_src cwd src resourceId).symm
    simp [hne]

/-- Claim C9 amended witness: the frame property evaluated on the concrete
filesystem of the counterexample. -/
theorem attach_file_frame_witness :
    fsWithDest "/w/r.txt" = some "data" ∧
    ∃ fs1, attach_file fsWithDest "/w" "/w/r.txt" "AB" =
        Except.ok (fs1, pathJoin "/w" ("AB" ++ "_" ++ basename "/w/r.txt")) ∧
      fs1 (pathJoin "/w" ("AB" ++ "_" ++ basename "/w/r.txt")) = some "data" ∧
      (∀ p, p ≠ pathJoin "/w" ("AB" ++ "_" ++ basename "/w/r.txt") →
        fs1 p = fsWithDest p) ∧
      fs1 "/w/r.txt" = fsWithDest "/w/r.txt" :=
  ⟨by decide, attach_file_frame fsWithDest "/w" "/w/r.txt" "AB" "data" (by decide)⟩

/-- Helper: `pre` occurs as a prefix of `l`. -/
def isPrefixList : List Char → List Char → Bool
  | [], _ => true
  | _ :: _, [] => false
  | p :: ps, c :: cs => p = c && isPrefixList ps cs

/-- Helper for `pySplit`: `acc` is the current piece reversed; a piece
ends exactly when the separator has just been read, that is when the
reversed separator is a prefix of the new `acc`.  Because all
occurrences of the fixed separator have the same length, the earliest
occurrence to end is also the earliest to start, so this cut agrees
with Python's left-to-right, non-overlapping scan. -/
def pySplitAux (rsep : List Char) (seplen : Nat) : List Char → List Char → List String
  | [], acc => [String.mk acc.reverse]
  | c :: cs, acc =>
    if isPrefixList rsep (c :: acc) then
      String.mk ((c :: acc).drop seplen).reverse :: pySplitAux rsep seplen cs []
    else
      pySplitAux rsep seplen cs (c :: acc)

/-- Model of Python `str.split(sep)` for a non-empty separator; the
source never passes an empty one (Python would raise `ValueError`), so
for totality the empty separator returns the string whole. -/
def pySplit (s sep : String) : List String :=
  match sep.data with
  | [] => [s]
  | c :: cs => pySplitAux (c :: cs).reverse (c :: cs).length s.data []

/-- A process output stream target: an original interpreter stream or a
`StreamToLogger` capture installed by `EppLogger`. -/
inductive ProcStream where
  | original (id : Nat) : ProcStream
  | captured (s : StreamToLogger) : ProcStream
deriving DecidableEq, Repr

/-- Process-global state touched by `EppLogger`: the `sys.stdout` and
`sys.stderr` bindings and whether the logging subsystem is still active
(`logging.shutdown()` flushes and closes it, making this false). -/
structure ProcState where
  sysStdout : ProcStream
  sysStderr : ProcStream
  loggingActive : Bool
deriving DecidableEq, Repr

/-- Model of the `EppLogger` object's attributes as set by `__init__`:
the constructor arguments, the sink configured by `logging.basicConfig`
(file resolved against the working directory, `filemode='a'`), the saved
process streams and the two installed captures. -/
structure EppLogger where
  log_file : String
  level : Level
  prepend : Bool
  sinkPath : String
  sinkMode : Char
  saved_stdout : ProcStream
  saved_stderr : ProcStream
  slo : StreamToLogger
  sle : StreamToLogger
deriving DecidableEq, Repr

/-- Model of `EppLogger.__exit__(exc_type, exc_val, exc_tb)`: with no
active exception it calls `logging.shutdown()` and restores both saved
streams; with an active exception it does neither.  It returns `False`
in both cases, so an active exception is never suppressed. -/
def EppLogger.exitScope (self : EppLogger) (excType : Option PyExc)
    (ps : ProcState) : ProcState × Bool :=
  match excType with
  | none =>
    ({ sysStdout := self.saved_stdout, sysStderr := self.saved_stderr,
       loggingActive := false }, false)
  | some _ => (ps, false)

/-- Claim C1: on scope exit without an active exception the logging
subsystem is shut down and both process streams are restored to their
saved targets; with an active exception the process state is left
untouched; and the handler returns `False` in every case, so an active
exception always propagates and is never suppressed. -/
theorem eppLogger_exit_scope (self : EppLogger) (ps : ProcState) :
    (EppLogger.exitScope self none ps =
      ({ sysStdout := self.saved_stdout, sysStderr := self.saved_stderr,
         loggingActive := false }, false)) ∧
    (∀ e : PyExc, EppLogger.exitScope self (some e) ps = (ps, false)) ∧
    (∀ excType : Option PyExc, (EppLogger.exitScope self excType ps).2 = false) := by
  refine ⟨rfl, fun e => rfl, fun excType => ?_⟩
  cases excType <;> rfl

/-- Distribution metadata as returned by `pkg_resources.require`. -/
structure Distribution where
  version : String
deriving DecidableEq, Repr

/-- Outcome of scope entry: return `self` and proceed, terminate the
process via `sys.exit` with the given status, or propagate a raised
exception. -/
inductive EnterOutcome where
  | proceed : EnterOutcome
  | exitProcess (status : Int) : EnterOutcome
  | raised (e : PyExc) : EnterOutcome
deriving DecidableEq, Repr

/-- Model of `EppLogger.__enter__`: logs an informational record with the
installed version of the `genologics` package; when
`pkg_resources.require` raises `DistributionNotFound` it logs the
exception and a hint as errors and calls `sys.exit(-1)`; any other
exception from the lookup is not caught.  The lookup's outcome is the
oracle `requireResult`. -/
def EppLogger.enterScope (requireResult : Except PyExc (List Distribution)) :
    List LogRecord × EnterOutcome :=
  match requireResult with
  | Except.error (PyExc.distributionNotFound msg) =>
    ([⟨"root", Level.error, msg⟩,
      ⟨"root", Level.error, "Make sure you have the genologics package installed"⟩],
      EnterOutcome.exitProcess (-1))
  | Except.error e => ([], EnterOutcome.raised e)
  | Except.ok [] => ([], EnterOutcome.raised PyExc.indexError)
  | Except.ok (d :: _) =>
    ([⟨"root", Level.info, "Version: " ++ d.version⟩], EnterOutcome.proceed)

/-- Claim C8: when package metadata is missing, scope entry logs the
error (and a hint) and terminates the process with the non-zero status
-1 instead of raising a recoverable exception; otherwise it emits one
informational record with the package version and proceeds. -/
theorem eppLogger_enter_metadata (msg version : String) (rest : List Distribution) :
    (EppLogger.enterScope (Except.error (PyExc.distributionNotFound msg)) =
      ([⟨"root", Level.error, msg⟩,
        ⟨"root", Level.error, "Make sure you have the genologics package installed"⟩],
        EnterOutcome.exitProcess (-1)) ∧
      (-1 : Int) ≠ 0) ∧
    EppLogger.enterScope (Except.ok (⟨version⟩ :: rest)) =
      ([⟨"root", Level.info, "Version: " ++ version⟩], EnterOutcome.proceed) := by
  exact ⟨⟨rfl, by decide⟩, rfl⟩

/-- A file attached to a LIMS artifact, with its stored content location. -/
structure ArtifactFile where
  content_location : String
deriving DecidableEq, Repr

/-- The part of a LIMS artifact this code reads: its list of files. -/
structure ArtifactData where
  files : List ArtifactFile
deriving DecidableEq, Repr

/-- Result of `EppLogger.prepend_old_log`: the records it logged, the
filesystem afterwards, and either a normal return or the exception it
lets escape. -/
structure PrependOut where
  records : List LogRecord
  fs : Fs
  result : Except PyExc Unit

/-- Model of `EppLogger.prepend_old_log`: fetches the artifact whose id
is the log file name (the lookup's outcome is the oracle `getResult`);
when it has a file, computes
`log_path = content_location.split(BASEURI.split(':')[1])[1]` and copies
that local path onto `os.path.join(cwd, log_file)`.  The `except` chain
is mirrored on tags: an `HTTPError` from the lookup is caught with a
warning and the run continues; an `IOError` from the copy is logged as
an error naming both paths and then re-raised; an exception matching
neither clause — such as the `IndexError` from a subscript on a
too-short split — propagates with nothing logged.  (The `IOError`
clause is modelled on the copy step only, the sole place in the body
where `log_path`, which its message interpolates, is in scope.) -/
def EppLogger.prepend_old_log (baseuri log_file cwd : String)
    (getResult : Except PyExc ArtifactData) (fs : Fs) : PrependOut :=
  match getResult with
  | Except.error PyExc.httpError =>
    { records := [⟨"root", Level.warning,
        "No log file artifact found for id: " ++ log_file⟩],
      fs := fs, result := Except.ok () }
  | Except.error e => { records := [], fs := fs, result := Except.error e }
  | Except.ok art =>
    match art.files with
    | [] => { records := [], fs := fs, result := Except.ok () }
    | f :: _ =>
      match pyIndex (pySplit baseuri ":") 1 with
      | Except.error e => { records := [], fs := fs, result := Except.error e }
      | Except.ok authority =>
        match pyIndex (pySplit f.content_location authority) 1 with
        | Except.error e => { records := [], fs := fs, result := Except.error e }
        | Except.ok log_path =>
          let destination := pathJoin cwd log_file
          match copyFile fs log_path destination with
          | Except.ok fs1 => { records := [], fs := fs1, result := Except.ok () }
          | Except.error (PyExc.ioError m) =>
            { records := [⟨"root", Level.error,
                "Log could not be prepended, make sure " ++ log_path ++ " and "
                  ++ log_file ++ " are proper paths."⟩],
              fs := fs, result := Except.error (PyExc.ioError m) }
          | Except.error e => { records := [], fs := fs, result := Except.error e }

/-- Claim C3: a `not found` failure of the remote artifact lookup
(`HTTPError`) is caught: one warning naming the id is logged, the
filesystem is untouched and the run continues without raising; a lookup
failure of any other exception class propagates unchanged to the
caller. -/
theorem prepend_remote_error_handling (baseuri log_file cwd : String)
    (fs : Fs) (e : PyExc) (hne : e ≠ PyExc.httpError) :
    ((EppLogger.prepend_old_log baseuri log_file cwd
        (Except.error PyExc.httpError) fs).result = Except.ok () ∧
      (EppLogger.prepend_old_log baseuri log_file cwd
        (Except.error PyExc.httpError) fs).records =
        [⟨"root", Level.warning,
          "No log file artifact found for id: " ++ log_file⟩] ∧
      (EppLogger.prepend_old_log baseuri log_file cwd
        (Except.error PyExc.httpError) fs).fs = fs) ∧
    (EppLogger.prepend_old_log baseuri log_file cwd
      (Except.error e) fs).result = Except.error e := by
  refine ⟨⟨rfl, rfl, rfl⟩, ?_⟩
  cases e with
  | httpError => exact absurd rfl hne
  | ioError m => rfl
  | indexError => rfl
  | distributionNotFound m => rfl
  | other t => rfl

/-- Claim C3 witness: concrete lookup failures, one of the `not found`
class and one of another class. -/
theorem prepend_remote_error_handling_witness :
    (PyExc.other "ConnectionError") ≠ PyExc.httpError ∧
    ((EppLogger.prepend_old_log "https://lims.example.com" "24-1234" "/work"
        (Except.error PyExc.httpError) (fun _ => none)).result = Except.ok () ∧
      (EppLogger.prepend_old_log "https://lims.example.com" "24-1234" "/work"
        (Except.error PyExc.httpError) (fun _ => none)).records =
        [⟨"root", Level.warning,
          "No log file artifact found for id: " ++ "24-1234"⟩] ∧
      (EppLogger.prepend_old_log "https://lims.example.com" "24-1234" "/work"
        (Except.error PyExc.httpError) (fun _ => none)).fs = (fun _ => none)) ∧
    (EppLogger.prepend_old_log "https://lims.example.com" "24-1234" "/work"
      (Except.error (PyExc.other "ConnectionError")) (fun _ => none)).result =
      Except.error (PyExc.other "ConnectionError") :=
  ⟨by decide,
    prepend_remote_error_handling "https://lims.example.com" "24-1234" "/work"
      (fun _ => none) (PyExc.other "ConnectionError") (by decide)⟩

/-- Claim C7: when the artifact is found with a file, the path extraction
succeeds and the local copy of the old log fails with an `IOError`, one
error record describing the two paths is logged and the very same
exception is re-raised to the caller — the failure is never swallowed. -/
theorem prepend_copy_failure_relogged (baseuri log_file cwd authority
    log_path m : String) (f : ArtifactFile) (rest : List ArtifactFile) (fs : Fs)
    (hauth : pyIndex (pySplit baseuri ":") 1 = Except.ok authority)
    (hpath : pyIndex (pySplit f.content_location authority) 1 = Except.ok log_path)
    (hcopy : copyFile fs log_path (pathJoin cwd log_file) =
      Except.error (PyExc.ioError m)) :
    (EppLogger.prepend_old_log baseuri log_file cwd
        (Except.ok ⟨f :: rest⟩) fs).result = Except.error (PyExc.ioError m) ∧
    (EppLogger.prepend_old_log baseuri log_file cwd
        (Except.ok ⟨f :: rest⟩) fs).records =
      [⟨"root", Level.error,
        "Log could not be prepended, make sure " ++ log_path ++ " and "
          ++ log_file ++ " are proper paths."⟩] := by
  constructor <;> simp [EppLogger.prepend_old_log, hauth, hpath, hcopy]

/-- Claim C7 witness: a filesystem with no file at the extracted local
path, so that the copy raises `IOError`. -/
theorem prepend_copy_failure_relogged_witness :
    pyIndex (pySplit "https://lims.example.com" ":") 1 =
      Except.ok "//lims.example.com" ∧
    pyIndex (pySplit "https://lims.example.com/api/v2/files/40-1"
      "//lims.example.com") 1 = Except.ok "/api/v2/files/40-1" ∧
    copyFile (fun _ => none) "/api/v2/files/40-1" (pathJoin "/work" "24-1234") =
      Except.error
        (PyExc.ioError ("No such file or directory: " ++ "/api/v2/files/40-1")) ∧
    (EppLogger.prepend_old_log "https://lims.example.com" "24-1234" "/work"
        (Except.ok ⟨[⟨"https://lims.example.com/api/v2/files/40-1"⟩]⟩)
        (fun _ => none)).result =
      Except.error
        (PyExc.ioError ("No such file or directory: " ++ "/api/v2/files/40-1")) ∧
    (EppLogger.prepend_old_log "https://lims.example.com" "24-1234" "/work"
        (Except.ok ⟨[⟨"https://lims.example.com/api/v2/files/40-1"⟩]⟩)
        (fun _ => none)).records =
      [⟨"root", Level.error,
        "Log could not be prepended, make sure " ++ "/api/v2/files/40-1" ++ " and "
          ++ "24-1234" ++ " are proper paths."⟩] := by
  refine ⟨by rfl, by rfl, by rfl, ?_⟩
  exact prepend_copy_failure_relogged "https://lims.example.com" "24-1234" "/work"
    "//lims.example.com" "/api/v2/files/40-1"
    ("No such file or directory: " ++ "/api/v2/files/40-1")
    ⟨"https://lims.example.com/api/v2/files/40-1"⟩ [] (fun _ => none)
    (by rfl) (by rfl) (by rfl)

/-- Claim C10: an artifact whose stored content location does not contain
the base-URI authority substring makes the prepend path raise an
uncaught `IndexError` — the subscript `[1]` on a one-element split — with
no warning or error logged and no spec-level error variant involved: the
exception simply propagates to the caller. -/
theorem prepend_unprefixed_location_index_error :
    (EppLogger.prepend_old_log "https://lims.example.com" "24-1234" "/work"
        (Except.ok ⟨[⟨"local-path-without-authority"⟩]⟩)
        (fun _ => none)).result = Except.error PyExc.indexError ∧
    (EppLogger.prepend_old_log "https://lims.example.com" "24-1234" "/work"
        (Except.ok ⟨[⟨"local-path-without-authority"⟩]⟩)
        (fun _ => none)).records = [] ∧
    PyExc.indexError ≠ PyExc.httpError ∧
    (∀ m : String, PyExc.indexError ≠ PyExc.ioError m) := by
  refine ⟨rfl, rfl, by decide, fun m => by simp⟩

/-- Append one formatted record to the file at `path` — the sink that
`logging.basicConfig` opened in append mode; a missing file is created.
The formatter (`asctime:levelname:name:message` plus the trailing
newline) is abstracted as the parameter `fmt`, since the timestamp is
real time. -/
def emitRecord (fmt : LogRecord → String) (path : String) (fs : Fs)
    (r : LogRecord) : Fs :=
  fun p => if p = path then some (((fs path).getD "") ++ fmt r) else fs p

/-- Append a run's records to the sink in order. -/
def emitAll (fmt : LogRecord → String) (path : String) (fs : Fs)
    (rs : List LogRecord) : Fs :=
  rs.foldl (emitRecord fmt path) fs

/-- Concatenation of a run's formatted records. -/
def logText (fmt : LogRecord → String) (rs : List LogRecord) : String :=
  String.join (rs.map fmt)

/-- Folding string concatenation from any start equals the start followed
by the fold from the empty string. -/
theorem string_foldl_from (xs : List String) (a : String) :
    xs.foldl (fun r s => r ++ s) a = a ++ xs.foldl (fun r s => r ++ s) "" := by
  induction xs generalizing a with
  | nil => simp
  | cons x xs ih =>
    simp only [List.foldl_cons]
    rw [ih (a ++ x), ih ("" ++ x)]
    simp [String.append_assoc]

/-- Appending records to an existing file extends its content by the
formatted text of the records, in order. -/
theorem emitAll_append (fmt : LogRecord → String) (path : String)
    (rs : List LogRecord) (fs : Fs) (c : String) (h : fs path = some c) :
    emitAll fmt path fs rs path = some (c ++ logText fmt rs) := by
  induction rs generalizing fs c with
  | nil =>
    simpa [emitAll, logText, String.join] using h
  | cons r rs ih =>
    have hrec : (emitRecord fmt path fs r) path = some (c ++ fmt r) := by
      simp [emitRecord, h]
    have hstep := ih (emitRecord fmt path fs r) (c ++ fmt r) hrec
    have hfold : emitAll fmt path fs (r :: rs) =
        emitAll fmt path (emitRecord fmt path fs r) rs := rfl
    rw [hfold, hstep]
    have htext : logText fmt (r :: rs) = fmt r ++ logText fmt rs := by
      simp only [logText, String.join, List.map_cons, List.foldl_cons]
      rw [string_foldl_from (List.map fmt rs) ("" ++ fmt r)]
      simp
    rw [htext, String.append_assoc]

/-- Result of `EppLogger.__init__`: what it logged, the filesystem, the
two process stream bindings it leaves behind, and the constructed object
or the exception that escaped. -/
structure InitOut where
  records : List LogRecord
  fs : Fs
  sysStdout : ProcStream
  sysStderr : ProcStream
  result : Except PyExc EppLogger

/-- Model of `EppLogger.__init__(log_file, level, lims, prepend)`: when
`prepend` is set it first runs `prepend_old_log` (an exception there
escapes the constructor); then `logging.basicConfig` points the root
sink at the log file — resolved against the working directory — with
`filemode='a'`, so the file is not truncated and content already copied
there stays, new records being appended after it; finally the two
process streams are saved on the object and replaced by the
`StreamToLogger` captures (`STDOUT` at info, `STDERR` at error). -/
def EppLogger.init (baseuri log_file cwd : String) (level : Level)
    (prepend : Bool) (getResult : Except PyExc ArtifactData) (fs : Fs)
    (sysOut sysErr : ProcStream) : InitOut :=
  let pre : PrependOut :=
    if prepend then EppLogger.prepend_old_log baseuri log_file cwd getResult fs
    else { records := [], fs := fs, result := Except.ok () }
  match pre.result with
  | Except.error e =>
    { records := pre.records, fs := pre.fs, sysStdout := sysOut,
      sysStderr := sysErr, result := Except.error e }
  | Except.ok _ =>
    let slo : StreamToLogger := ⟨"STDOUT", Level.info, ""⟩
    let sle : StreamToLogger := ⟨"STDERR", Level.error, ""⟩
    { records := pre.records, fs := pre.fs,
      sysStdout := ProcStream.captured slo,
      sysStderr := ProcStream.captured sle,
      result := Except.ok
        { log_file := log_file, level := level, prepend := prepend,
          sinkPath := pathJoin cwd log_file, sinkMode := 'a',
          saved_stdout := sysOut, saved_stderr := sysErr,
          slo := slo, sle := sle } }

/-- Claim C6: with prepending requested, a matching remote artifact
carrying a file, and that file's local path readable, construction
copies the old content onto the target log file (creating or
overwriting it) before the sink is configured on that same file in
append mode `'a'`; consequently the log file holds exactly the old
content at acquisition, and the old content followed by the new run's
records after any records are emitted. -/
theorem eppLogger_prepend_continuity (baseuri log_file cwd authority
    log_path oldContent : String) (level : Level) (f : ArtifactFile)
    (rest : List ArtifactFile) (fs : Fs) (sysOut sysErr : ProcStream)
    (hauth : pyIndex (pySplit baseuri ":") 1 = Except.ok authority)
    (hpath : pyIndex (pySplit f.content_location authority) 1 = Except.ok log_path)
    (hold : fs log_path = some oldContent) :
    ∃ self : EppLogger, ∃ fs1 : Fs,
      (EppLogger.init baseuri log_file cwd level true
          (Except.ok ⟨f :: rest⟩) fs sysOut sysErr).result = Except.ok self ∧
      (EppLogger.init baseuri log_file cwd level true
          (Except.ok ⟨f :: rest⟩) fs sysOut sysErr).fs = fs1 ∧
      self.sinkPath = pathJoin cwd log_file ∧
      self.sinkMode = 'a' ∧
      fs1 self.sinkPath = some oldContent ∧
      (∀ fmt rs, emitAll fmt self.sinkPath fs1 rs self.sinkPath =
        some (oldContent ++ logText fmt rs)) := by
  have hcopy : copyFile fs log_path (pathJoin cwd log_file) =
      Except.ok (fun p => if p = pathJoin cwd log_file
        then some oldContent else fs p) := by
    simp [copyFile, hold]
  refine ⟨{ log_file := log_file, level := level, prepend := true, sinkPath := pathJoin cwd log_file, sinkMode := 'a', saved_stdout := sysOut, saved_stderr := sysErr, slo := ⟨"STDOUT", Level.info, ""⟩, sle := ⟨"STDERR", Level.error, ""⟩ }, fun p => if p = pathJoin cwd log_file then some oldContent else fs p, ?_, ?_, rfl, rfl, ?_, ?_⟩
  · simp [EppLogger.init, EppLogger.prepend_old_log, hauth, hpath, hcopy]
  · simp [EppLogger.init, EppLogger.prepend_old_log, hauth, hpath, hcopy]
  · simp
  · intro fmt rs
    exact emitAll_append fmt (pathJoin cwd log_file) rs _ oldContent (by simp)

/-- Claim C6 witness: a concrete artifact, base URI and filesystem on
which acquisition with prepending yields a log file holding the old
content, ready for appended records. -/
theorem eppLogger_prepend_continuity_witness :
    pyIndex (pySplit "https://lims.example.com" ":") 1 =
      Except.ok "//lims.example.com" ∧
    pyIndex (pySplit "https://lims.example.com/api/v2/files/40-1"
      "//lims.example.com") 1 = Except.ok "/api/v2/files/40-1" ∧
    (fun p => if p = "/api/v2/files/40-1" then some "OLDLOG\n" else none)
      "/api/v2/files/40-1" = some "OLDLOG\n" ∧
    (∃ self : EppLogger, ∃ fs1 : Fs,
      (EppLogger.init "https://lims.example.com" "24-1234" "/work" Level.info true
          (Except.ok ⟨[⟨"https://lims.example.com/api/v2/files/40-1"⟩]⟩)
          (fun p => if p = "/api/v2/files/40-1" then some "OLDLOG\n" else none)
          (ProcStream.original 1) (ProcStream.original 2)).result =
        Except.ok self ∧
      (EppLogger.init "https://lims.example.com" "24-1234" "/work" Level.info true
          (Except.ok ⟨[⟨"https://lims.example.com/api/v2/files/40-1"⟩]⟩)
          (fun p => if p = "/api/v2/files/40-1" then some "OLDLOG\n" else none)
          (ProcStream.original 1) (ProcStream.original 2)).fs = fs1 ∧
      self.sinkPath = pathJoin "/work" "24-1234" ∧
      self.sinkMode = 'a' ∧
      fs1 self.sinkPath = some "OLDLOG\n" ∧
      (∀ fmt rs, emitAll fmt self.sinkPath fs1 rs self.sinkPath =
        some ("OLDLOG\n" ++ logText fmt rs))) :=
  ⟨by rfl, by rfl, by rfl,
    eppLogger_prepend_continuity "https://lims.example.com" "24-1234" "/work"
      "//lims.example.com" "/api/v2/files/40-1" "OLDLOG\n" Level.info
      ⟨"https://lims.example.com/api/v2/files/40-1"⟩ []
      (fun p => if p = "/api/v2/files/40-1" then some "OLDLOG\n" else none)
      (ProcStream.original 1) (ProcStream.original 2)
      (by rfl) (by rfl) (by rfl)⟩
